import Mathlib

/-!
Verification development for the file-format-converter application
(`src/app.py`).  The pure logic of the program (extension detection,
format registry, dispatch, the PDF batch loop, alpha-channel handling)
is embedded directly; the external libraries it calls (pandas, Pillow,
pymupdf, Python's UTF-8 codec) are modelled as oracles collected in an
`Env` structure, so that theorems quantify over every possible behaviour
of those libraries.
-/

deriving instance DecidableEq for Except

/-- Byte strings are modelled as lists of naturals. -/
abbrev Bytes := List Nat

/-- Model of a decoded Pillow image: its pixel `mode` string (as exposed by
`img.mode`, e.g. "RGB", "RGBA", "P", "LA"), an abstract pixel payload, and
whether a palette image carries transparency information. -/
structure PILImage where
  mode : String
  data : List Nat
  transparency : Bool
deriving Repr, DecidableEq

/-- Model of `img.convert(m)`: the pixel mode changes, the abstract payload
is kept. -/
def PILImage.convert (img : PILImage) (m : String) : PILImage :=
  { img with mode := m }

/-- Pixel modes that Pillow's JPEG encoder accepts (its raw-mode table). -/
def jpegRawModes : List String := ["1", "L", "RGB", "RGBX", "CMYK", "YCbCr"]

/-- Modelled from the dependency (Pillow): `img.save(out, format=fmt)`
fails (raises OSError) when `fmt` is JPEG and the pixel mode is outside the
JPEG raw-mode table (e.g. RGBA, LA, P); otherwise it produces the encoded
payload, abstracted here as the image's pixel data. -/
def pilSave (img : PILImage) (fmt : String) : Option Bytes :=
  if fmt = "JPEG" ∧ img.mode ∉ jpegRawModes then none
  else some img.data

/-- ASCII upper-casing of a string, character by character (the model of
Python's `str.upper()` on the ASCII extension tokens handled here). -/
def strUpper (s : String) : String :=
  String.mk (s.toList.map Char.toUpper)

/-- The `pil_fmt` computation of `convert_image` / `convert_pdf`:
`"JPEG" if target_ext == "jpg" else target_ext.upper()`. -/
def pilFmt (target_ext : String) : String :=
  if target_ext = "jpg" then "JPEG" else strUpper target_ext

/-- Model of an opened pymupdf document: its page count, and an oracle
giving, for a 0-based page index and a dpi value, the RGB pixel samples of
the rendered page (`load_page` + `get_pixmap(matrix, alpha=False)` +
`Image.frombytes("RGB", ...)`), or `none` when any of those steps raises. -/
structure PdfDoc where
  page_count : Nat
  pixmapSamples : Nat → Nat → Option (List Nat)

/-- Abstract pandas DataFrame (its contents are irrelevant to the claims
settled here; only the success or failure of parsing and serialisation
matters). -/
structure DataFrame where
  id : Nat
deriving Repr, DecidableEq

/-- Oracles for every external-library call made by `app.py`, together with
the UTF-8 round-trip law Python's strict codec guarantees: re-encoding a
successfully decoded byte string yields the original bytes. -/
structure Env where
  imageOpen : Bytes → Option PILImage
  pdfOpen : Bytes → Option PdfDoc
  decodeUtf8 : Bytes → Option String
  encodeUtf8 : String → Bytes
  readCsv : Bytes → Option DataFrame
  readTsv : Bytes → Option DataFrame
  readJsonNormalized : Bytes → Option DataFrame
  readExcel : Bytes → Option DataFrame
  toCsv : DataFrame → String
  toTsv : DataFrame → String
  toJson : DataFrame → Option String
  toXlsx : DataFrame → Bytes
  utf8_roundtrip : ∀ b s, decodeUtf8 b = some s → encodeUtf8 s = b

/-- The distinct exception outcomes of `app.py`'s converters (each Python
`raise` site or uncaught library exception gets one constructor). -/
inductive ConvError where
  | tabularParseError
  | unsupportedTabularSource
  | jsonWriteEmpty
  | unsupportedTabularTarget
  | invalidUtf8
  | unsupportedTextConversion
  | imageDecodeError
  | imageSaveError
  | mimeKeyError
  | pdfOpenError
  | emptyDocument
  | pageOutOfRange
  | pdfRenderError
  | batchFailed
  | unsupportedSourceFormat
deriving Repr, DecidableEq

/-- `TABULAR_TARGETS` dict of `app.py` (insertion order preserved). -/
def TABULAR_TARGETS : List (String × List String) :=
  [("csv", ["json", "xlsx", "tsv"]),
   ("tsv", ["csv", "json", "xlsx"]),
   ("json", ["csv", "tsv", "xlsx"]),
   ("xlsx", ["csv", "tsv", "json"])]

/-- `TEXT_TARGETS` dict of `app.py`. -/
def TEXT_TARGETS : List (String × List String) :=
  [("txt", ["md"]), ("md", ["txt"])]

/-- `IMAGE_TARGETS` dict of `app.py`. -/
def IMAGE_TARGETS : List (String × List String) :=
  [("png", ["jpg", "webp", "bmp"]),
   ("jpg", ["png", "webp", "bmp"]),
   ("jpeg", ["png", "webp", "bmp"]),
   ("webp", ["png", "jpg", "bmp"]),
   ("bmp", ["png", "jpg", "webp"])]

/-- `PDF_TARGETS` dict of `app.py`. -/
def PDF_TARGETS : List (String × List String) :=
  [("pdf", ["png", "jpg", "webp", "bmp"])]

/-- `get_candidates` of `app.py`: four ordered dict-membership tests. -/
def get_candidates (ext : String) : List String :=
  match TABULAR_TARGETS.lookup ext with
  | some ts => ts
  | none =>
    match TEXT_TARGETS.lookup ext with
    | some ts => ts
    | none =>
      match IMAGE_TARGETS.lookup ext with
      | some ts => ts
      | none =>
        match PDF_TARGETS.lookup ext with
        | some ts => ts
        | none => []

/-- Splitting a character list on the `/` path separator (for the POSIX
`pathlib` semantics of `Path(filename)`). -/
def splitSlash (l : List Char) : List (List Char) :=
  match l with
  | [] => [[]]
  | c :: cs =>
    match splitSlash cs with
    | [] => [[]]
    | h :: t => if c = '/' then [] :: h :: t else (c :: h) :: t

/-- Model of `Path(filename).name` on POSIX: split on `/`, discard empty
and `"."` components, take the last component (empty when none remains). -/
def pathNameChars (filename : String) : List Char :=
  (((splitSlash filename.toList).filter
      (fun comp => ¬(comp = [] ∨ comp = ['.']))).getLast?).getD []

/-- Model of Python's `str.rfind('.')`: the index of the last dot of the
list, or `none` when there is no dot. -/
def rfindDot : List Char → Option Nat
  | [] => none
  | c :: cs =>
    match rfindDot cs with
    | some i => some (i + 1)
    | none => if c = '.' then some 0 else none

/-- Model of `pathlib`'s `suffix` property: with `i` the index of the last
dot of the name, the tail from `i` when `0 < i < len(name) - 1`, else
the empty suffix. -/
def pySuffix (name : List Char) : List Char :=
  match rfindDot name with
  | none => []
  | some i => if 0 < i ∧ i < name.length - 1 then List.drop i name else []

/-- `detect_extension` of `app.py`:
`Path(filename).suffix.lower().lstrip(".")` (ASCII lower-casing). -/
def detect_extension (filename : String) : String :=
  String.mk (((pySuffix (pathNameChars filename)).map Char.toLower).dropWhile
    (fun c => c = '.'))

/-- `load_tabular` of `app.py`: the four recognized tabular parsers, else
the ValueError for an unsupported tabular source. -/
def load_tabular (env : Env) (source_ext : String) (raw : Bytes) :
    Except ConvError DataFrame :=
  if source_ext = "csv" then
    match env.readCsv raw with
    | some df => .ok df
    | none => .error .tabularParseError
  else if source_ext = "tsv" then
    match env.readTsv raw with
    | some df => .ok df
    | none => .error .tabularParseError
  else if source_ext = "json" then
    match env.readJsonNormalized raw with
    | some df => .ok df
    | none => .error .tabularParseError
  else if source_ext = "xlsx" then
    match env.readExcel raw with
    | some df => .ok df
    | none => .error .tabularParseError
  else .error .unsupportedTabularSource

/-- MIME type of the xlsx serialisation. -/
def xlsxMime : String :=
  "application/vnd.openxmlformats-officedocument.spreadsheetml.sheet"

/-- `convert_tabular` of `app.py`: parse, then serialise by target. -/
def convert_tabular (env : Env) (source_ext target_ext : String)
    (raw : Bytes) : Except ConvError (Bytes × String) :=
  match load_tabular env source_ext raw with
  | .error e => .error e
  | .ok df =>
    if target_ext = "csv" then
      .ok (env.encodeUtf8 (env.toCsv df), "text/csv")
    else if target_ext = "tsv" then
      .ok (env.encodeUtf8 (env.toTsv df), "text/tab-separated-values")
    else if target_ext = "json" then
      match env.toJson df with
      | none => .error .jsonWriteEmpty
      | some text => .ok (env.encodeUtf8 text, "application/json")
    else if target_ext = "xlsx" then
      .ok (env.toXlsx df, xlsxMime)
    else .error .unsupportedTabularTarget

/-- `convert_text` of `app.py`: decode UTF-8 (raising on invalid input),
then re-encode unchanged with the re-tagged MIME type for the two
supported pairs. -/
def convert_text (env : Env) (source_ext target_ext : String)
    (raw : Bytes) : Except ConvError (Bytes × String) :=
  match env.decodeUtf8 raw with
  | none => .error .invalidUtf8
  | some text =>
    if source_ext = "txt" ∧ target_ext = "md" then
      .ok (env.encodeUtf8 text, "text/markdown")
    else if source_ext = "md" ∧ target_ext = "txt" then
      .ok (env.encodeUtf8 text, "text/plain")
    else .error .unsupportedTextConversion

/-- The `mime_map` dict shared verbatim by `convert_image` and
`convert_pdf`. -/
def mime_map : List (String × String) :=
  [("png", "image/png"), ("jpg", "image/jpeg"),
   ("webp", "image/webp"), ("bmp", "image/bmp")]

/-- The image actually handed to `img.save` in `convert_image`: flattened
to RGB when the Pillow format is JPEG and the mode is RGBA or P. -/
def imageToSave (img : PILImage) (target_ext : String) : PILImage :=
  if pilFmt target_ext = "JPEG" ∧ (img.mode = "RGBA" ∨ img.mode = "P") then
    img.convert "RGB"
  else img

/-- `convert_image` of `app.py`: decode, optionally flatten, encode, then
look the MIME type up (a `KeyError` when the target is not in the table). -/
def convert_image (env : Env) (source_ext target_ext : String)
    (raw : Bytes) : Except ConvError (Bytes × String) :=
  match env.imageOpen raw with
  | none => .error .imageDecodeError
  | some img =>
    match pilSave (imageToSave img target_ext) (pilFmt target_ext) with
    | none => .error .imageSaveError
    | some payload =>
      match mime_map.lookup target_ext with
      | none => .error .mimeKeyError
      | some mime => .ok (payload, mime)

/-- `get_pdf_page_count` of `app.py`. -/
def get_pdf_page_count (env : Env) (raw : Bytes) : Option Nat :=
  (env.pdfOpen raw).map PdfDoc.page_count

/-- The per-page rendering pipeline shared by `convert_pdf` and the loop
body of `convert_pdf_all_pages` (lines 144-153 and 182-190 of `app.py`):
rasterise the 0-based page at the given dpi into an opaque RGB image and
encode it with Pillow in the target format. -/
def pageRender (env : Env) (doc : PdfDoc) (target_ext : String) (dpi : Nat)
    (page_index : Nat) : Option Bytes :=
  match doc.pixmapSamples page_index dpi with
  | none => none
  | some samples =>
    pilSave { mode := "RGB", data := samples, transparency := false }
      (pilFmt target_ext)

/-- `convert_pdf` of `app.py`: open, validate emptiness and page range,
render the requested page, encode, look up the MIME type. -/
def convert_pdf (env : Env) (target_ext : String) (raw : Bytes)
    (page_number : Int) (dpi : Nat) : Except ConvError (Bytes × String) :=
  match env.pdfOpen raw with
  | none => .error .pdfOpenError
  | some doc =>
    if doc.page_count = 0 then .error .emptyDocument
    else
      let page_index : Int := page_number - 1
      if page_index < 0 ∨ (doc.page_count : Int) ≤ page_index then
        .error .pageOutOfRange
      else
        match pageRender env doc target_ext dpi page_index.toNat with
        | none => .error .pdfRenderError
        | some payload =>
          match mime_map.lookup target_ext with
          | none => .error .mimeKeyError
          | some mime => .ok (payload, mime)

/-- The zip entry name `page_<N>.<ext>` written by the batch loop, with
`page_index` the 0-based index. -/
def zipEntryName (page_index : Nat) (target_ext : String) : String :=
  "page_" ++ toString (page_index + 1) ++ "." ++ target_ext

/-- Accumulator of the batch loop of `convert_pdf_all_pages`: the zip
entries written so far, the failed page numbers, the success count. -/
structure BatchState where
  entries : List (String × Bytes)
  failed_pages : List Nat
  success_count : Nat
deriving Repr, DecidableEq

/-- One iteration of the `for page_index in range(doc.page_count)` loop of
`convert_pdf_all_pages`: the try-block renders and encodes the page and on
success writes the zip entry and increments the count; any failure appends
the 1-based page number to the failed list. -/
def batchStep (env : Env) (doc : PdfDoc) (target_ext : String) (dpi : Nat)
    (st : BatchState) (page_index : Nat) : BatchState :=
  match pageRender env doc target_ext dpi page_index with
  | some payload =>
    { st with
        entries := st.entries ++ [(zipEntryName page_index target_ext, payload)],
        success_count := st.success_count + 1 }
  | none =>
    { st with failed_pages := st.failed_pages ++ [page_index + 1] }

/-- `convert_pdf_all_pages` of `app.py`: open, reject an empty document,
run the per-page loop, reject a batch with zero successes, and otherwise
return the archive (modelled by its ordered entry list), the zip MIME
type, the failed page numbers and the success count. -/
def convert_pdf_all_pages (env : Env) (target_ext : String) (raw : Bytes)
    (dpi : Nat) :
    Except ConvError (List (String × Bytes) × String × List Nat × Nat) :=
  match env.pdfOpen raw with
  | none => .error .pdfOpenError
  | some doc =>
    if doc.page_count = 0 then .error .emptyDocument
    else
      let st := (List.range doc.page_count).foldl
        (batchStep env doc target_ext dpi)
        { entries := [], failed_pages := [], success_count := 0 }
      if st.success_count = 0 then .error .batchFailed
      else .ok (st.entries, "application/zip", st.failed_pages, st.success_count)

/-- `convert_file` of `app.py`: dispatch on the source extension's family
(dict membership tests, in source order). -/
def convert_file (env : Env) (source_ext target_ext : String) (raw : Bytes)
    (page_number : Int) (dpi : Nat) : Except ConvError (Bytes × String) :=
  if (TABULAR_TARGETS.lookup source_ext).isSome then
    convert_tabular env source_ext target_ext raw
  else if (TEXT_TARGETS.lookup source_ext).isSome then
    convert_text env source_ext target_ext raw
  else if (IMAGE_TARGETS.lookup source_ext).isSome then
    convert_image env source_ext target_ext raw
  else if (PDF_TARGETS.lookup source_ext).isSome then
    convert_pdf env target_ext raw page_number dpi
  else .error .unsupportedSourceFormat

/-! ## Concrete instances used by witnesses and counterexamples -/

/-- A two-page document whose first page renders and second page fails. -/
def doc2 : PdfDoc :=
  { page_count := 2,
    pixmapSamples := fun i _ => if i = 0 then some [5] else none }

/-- A zero-page document. -/
def doc0 : PdfDoc :=
  { page_count := 0, pixmapSamples := fun _ _ => none }

/-- A one-page document whose only page fails to render. -/
def docBad : PdfDoc :=
  { page_count := 1, pixmapSamples := fun _ _ => none }

/-- A concrete environment: byte string `[1]` decodes to an RGBA image,
`[2]` to a grayscale-plus-alpha (LA) image, `[3]` to an opaque RGB image,
`[10]`/`[11]`/`[12]` open as the three concrete documents, `[20]` parses
as a CSV table, and only the empty byte string is valid UTF-8. -/
def envA : Env :=
  { imageOpen := fun b =>
      if b = [1] then some { mode := "RGBA", data := [9], transparency := false }
      else if b = [2] then some { mode := "LA", data := [9], transparency := false }
      else if b = [3] then some { mode := "RGB", data := [9], transparency := false }
      else none,
    pdfOpen := fun b =>
      if b = [10] then some doc2
      else if b = [11] then some doc0
      else if b = [12] then some docBad
      else none,
    decodeUtf8 := fun b => if b = [] then some "" else none,
    encodeUtf8 := fun _ => [],
    readCsv := fun b => if b = [20] then some { id := 0 } else none,
    readTsv := fun _ => none,
    readJsonNormalized := fun _ => none,
    readExcel := fun _ => none,
    toCsv := fun _ => "c",
    toTsv := fun _ => "t",
    toJson := fun _ => some "j",
    toXlsx := fun _ => [30],
    utf8_roundtrip := by
      intro b s h
      by_cases hb : b = []
      · simp [hb]
      · simp [hb] at h }

/-! ## Helper lemmas for the PDF batch loop -/

lemma length_filter_isSome_add_isNone (f : Nat → Option Bytes) (l : List Nat) :
    (l.filter fun i => (f i).isSome).length
      + (l.filter fun i => (f i).isNone).length = l.length := by
  induction l with
  | nil => simp
  | cons a l ih => cases h : f a <;> simp [h] <;> omega

lemma batch_fold_spec (env : Env) (doc : PdfDoc) (t : String) (dpi : Nat)
    (n : Nat) :
    (List.range n).foldl (batchStep env doc t dpi)
      { entries := [], failed_pages := [], success_count := 0 } =
    { entries := ((List.range n).filter
          (fun i => (pageRender env doc t dpi i).isSome)).map
          (fun i => (zipEntryName i t, (pageRender env doc t dpi i).getD [])),
      failed_pages := ((List.range n).filter
          (fun i => (pageRender env doc t dpi i).isNone)).map (fun i => i + 1),
      success_count := ((List.range n).filter
          (fun i => (pageRender env doc t dpi i).isSome)).length } := by
  induction n with
  | zero => rfl
  | succ n ih =>
    rw [List.range_succ, List.foldl_append, ih]
    cases h : pageRender env doc t dpi n <;>
      simp [batchStep, h, List.filter_append]

/-- C1: whenever `convert_pdf_all_pages` returns a result, the success
count plus the number of failed page numbers equals the document's page
count; the failed page numbers are strictly ascending (hence distinct) and
lie in `[1, pageCount]`; and the archive holds exactly one entry per
successful page, named `page_<N>.<ext>` with `N` the 1-based page number,
in ascending page order. -/
theorem c1_batch_archive_invariants (env : Env) (t : String) (raw : Bytes)
    (dpi : Nat) (entries : List (String × Bytes)) (mime : String)
    (failed : List Nat) (cnt : Nat) (doc : PdfDoc)
    (hok : convert_pdf_all_pages env t raw dpi =
      .ok (entries, mime, failed, cnt))
    (hopen : env.pdfOpen raw = some doc) :
    cnt + failed.length = doc.page_count
    ∧ List.Pairwise (· < ·) failed
    ∧ (∀ m ∈ failed, 1 ≤ m ∧ m ≤ doc.page_count)
    ∧ entries.length = cnt
    ∧ ∃ succ : List Nat,
        List.Pairwise (· < ·) succ
        ∧ (∀ m ∈ succ, 1 ≤ m ∧ m ≤ doc.page_count)
        ∧ (∀ m, 1 ≤ m → m ≤ doc.page_count → (m ∈ succ ↔ m ∉ failed))
        ∧ entries.map Prod.fst =
            succ.map (fun m => "page_" ++ toString m ++ "." ++ t) := by
  simp only [convert_pdf_all_pages, hopen] at hok
  by_cases hc : doc.page_count = 0
  · simp [hc] at hok
  · rw [if_neg hc, batch_fold_spec] at hok
    set p := fun i => (pageRender env doc t dpi i).isSome with hp
    set q := fun i => (pageRender env doc t dpi i).isNone with hq
    by_cases hz : ((List.range doc.page_count).filter p).length = 0
    · simp [hz] at hok
    · rw [if_neg hz] at hok
      obtain ⟨he, _hm, hf, hcnt⟩ :
          entries = ((List.range doc.page_count).filter p).map
              (fun i => (zipEntryName i t, (pageRender env doc t dpi i).getD []))
          ∧ mime = "application/zip"
          ∧ failed = ((List.range doc.page_count).filter q).map (fun i => i + 1)
          ∧ cnt = ((List.range doc.page_count).filter p).length := by
        have := hok
        simp only [Except.ok.injEq, Prod.mk.injEq] at this
        exact ⟨this.1.symm, this.2.1.symm, this.2.2.1.symm, this.2.2.2.symm⟩
      have hpair : ∀ r : List Nat, r.Sublist (List.range doc.page_count) →
          List.Pairwise (· < ·) (r.map (fun i => i + 1)) := by
        intro r hr
        refine List.Pairwise.map _ (fun a b hab => ?_)
          ((List.pairwise_lt_range doc.page_count).sublist hr)
        omega
      refine ⟨?_, ?_, ?_, ?_, ?_⟩
      · rw [hcnt, hf]
        simpa using length_filter_isSome_add_isNone
          (pageRender env doc t dpi) (List.range doc.page_count)
      · rw [hf]; exact hpair _ (List.filter_sublist _)
      · intro m hm
        rw [hf] at hm
        simp only [List.mem_map, List.mem_filter, List.mem_range] at hm
        obtain ⟨i, ⟨hi, _⟩, rfl⟩ := hm
        omega
      · rw [he, hcnt, List.length_map]
      · refine ⟨((List.range doc.page_count).filter p).map (fun i => i + 1),
          hpair _ (List.filter_sublist _), ?_, ?_, ?_⟩
        · intro m hm
          simp only [List.mem_map, List.mem_filter, List.mem_range] at hm
          obtain ⟨i, ⟨hi, _⟩, rfl⟩ := hm
          omega
        · intro m h1 h2
          rw [hf]
          simp only [List.mem_map, List.mem_filter, List.mem_range]
          constructor
          · rintro ⟨i, ⟨hi, hsome⟩, rfl⟩ ⟨j, ⟨hj, hnone⟩, hji⟩
            have : j = i := by omega
            subst this
            rw [hp] at hsome
            rw [hq] at hnone
            cases hpr : pageRender env doc t dpi j <;>
              simp [hpr] at hsome hnone
          · intro hnot
            refine ⟨m - 1, ⟨by omega, ?_⟩, by omega⟩
            rw [hp]
            cases hpr : pageRender env doc t dpi (m - 1) with
            | some v => simp [hpr]
            | none =>
              exact absurd (hnot ⟨m - 1, ⟨by omega, by simp [hq, hpr]⟩,
                by omega⟩) (by simp)
        · rw [he]
          simp only [List.map_map]
          apply List.map_congr_left
          intro i _
          simp [zipEntryName]

/-- Witness for C1 at a concrete two-page document whose second page fails:
the archive has the single entry `page_1.png`, the failed list is `[2]`. -/
theorem c1_witness :
    1 + ([2] : List Nat).length = doc2.page_count
    ∧ List.Pairwise (· < ·) ([2] : List Nat)
    ∧ (∀ m ∈ ([2] : List Nat), 1 ≤ m ∧ m ≤ doc2.page_count)
    ∧ ([("page_1.png", ([5] : Bytes))]).length = 1
    ∧ ∃ succ : List Nat,
        List.Pairwise (· < ·) succ
        ∧ (∀ m ∈ succ, 1 ≤ m ∧ m ≤ doc2.page_count)
        ∧ (∀ m, 1 ≤ m → m ≤ doc2.page_count →
            (m ∈ succ ↔ m ∉ ([2] : List Nat)))
        ∧ ([("page_1.png", ([5] : Bytes))]).map Prod.fst =
            succ.map (fun m => "page_" ++ toString m ++ "." ++ "png") :=
  c1_batch_archive_invariants envA "png" [10] 200
    [("page_1.png", [5])] "application/zip" [2] 1 doc2 (by decide) rfl

/-- C2: `convert_pdf_all_pages` fails exactly when the document cannot be
opened, when the page count is zero (empty document), or when zero pages
converted successfully (batch failure); these are its only error outcomes,
a single page's failure never aborts the loop, and a returned archive
never has zero entries. -/
theorem c2_batch_error_conditions (env : Env) (t : String) (raw : Bytes)
    (dpi : Nat) :
    (convert_pdf_all_pages env t raw dpi = .error .pdfOpenError ↔
      env.pdfOpen raw = none)
    ∧ (∀ e, convert_pdf_all_pages env t raw dpi = .error e →
        e = .pdfOpenError ∨ e = .emptyDocument ∨ e = .batchFailed)
    ∧ ∀ doc, env.pdfOpen raw = some doc →
        ((convert_pdf_all_pages env t raw dpi = .error .emptyDocument ↔
          doc.page_count = 0)
        ∧ (convert_pdf_all_pages env t raw dpi = .error .batchFailed ↔
            (doc.page_count ≠ 0 ∧
              ∀ i < doc.page_count, pageRender env doc t dpi i = none))
        ∧ (∀ entries mime failed cnt,
            convert_pdf_all_pages env t raw dpi =
              .ok (entries, mime, failed, cnt) →
            entries ≠ [] ∧ cnt ≠ 0)) := by
  have main : ∀ doc, env.pdfOpen raw = some doc →
      ((convert_pdf_all_pages env t raw dpi = .error .emptyDocument ↔
        doc.page_count = 0)
      ∧ (convert_pdf_all_pages env t raw dpi = .error .batchFailed ↔
          (doc.page_count ≠ 0 ∧
            ∀ i < doc.page_count, pageRender env doc t dpi i = none))
      ∧ (∀ entries mime failed cnt,
          convert_pdf_all_pages env t raw dpi =
            .ok (entries, mime, failed, cnt) →
          entries ≠ [] ∧ cnt ≠ 0)) := by
    intro doc hopen
    by_cases hc : doc.page_count = 0
    · simp [convert_pdf_all_pages, hopen, hc]
    · have hall : ((List.range doc.page_count).filter
          (fun i => (pageRender env doc t dpi i).isSome)).length = 0 ↔
          ∀ i < doc.page_count, pageRender env doc t dpi i = none := by
        rw [List.length_eq_zero, List.filter_eq_nil_iff]
        constructor
        · intro h i hi
          have := h i (List.mem_range.mpr hi)
          cases hpr : pageRender env doc t dpi i with
          | none => rfl
          | some v => simp [hpr] at this
        · intro h i hi
          simp [h i (List.mem_range.mp hi)]
      by_cases hz : ((List.range doc.page_count).filter
          (fun i => (pageRender env doc t dpi i).isSome)).length = 0
      · refine ⟨?_, ?_, ?_⟩
        · simp [convert_pdf_all_pages, hopen, if_neg hc, batch_fold_spec, hz, hc]
        · simp only [convert_pdf_all_pages, hopen]
          rw [if_neg hc, batch_fold_spec]
          simp only [hz, if_pos rfl]
          simpa [hc] using hall.mp hz
        · intro entries mime failed cnt h
          simp only [convert_pdf_all_pages, hopen] at h
          rw [if_neg hc, batch_fold_spec] at h
          simp [hz] at h
      · refine ⟨?_, ?_, ?_⟩
        · simp [convert_pdf_all_pages, hopen, if_neg hc, batch_fold_spec, hz, hc]
        · simp only [convert_pdf_all_pages, hopen]
          rw [if_neg hc, batch_fold_spec]
          simp only [hz, if_neg hz]
          constructor
          · intro h; exact absurd h (by simp)
          · intro h
            exact absurd (hall.mpr h.2) hz
        · intro entries mime failed cnt h
          simp only [convert_pdf_all_pages, hopen] at h
          rw [if_neg hc, batch_fold_spec] at h
          rw [if_neg hz] at h
          simp only [Except.ok.injEq, Prod.mk.injEq] at h
          obtain ⟨he, _, _, hcnt⟩ := h
          constructor
          · intro hnil
            rw [hnil] at he
            have hlen := congrArg List.length he
            simp only [List.length_nil, List.length_map] at hlen
            exact hz hlen
          · omega
  refine ⟨?_, ?_, main⟩
  · cases hopen : env.pdfOpen raw with
    | none => simp [convert_pdf_all_pages, hopen]
    | some doc =>
      constructor
      · intro h
        obtain ⟨h1, h2, _⟩ := main doc hopen
        by_cases hc : doc.page_count = 0
        · rw [h1.mpr hc] at h; simp at h
        · simp only [convert_pdf_all_pages, hopen] at h
          rw [if_neg hc, batch_fold_spec] at h
          by_cases hz : ((List.range doc.page_count).filter
              (fun i => (pageRender env doc t dpi i).isSome)).length = 0
          · simp [hz] at h
          · rw [if_neg hz] at h; simp at h
      · intro h
        exact Option.noConfusion h
  · intro e he
    cases hopen : env.pdfOpen raw with
    | none =>
      simp only [convert_pdf_all_pages, hopen] at he
      simp only [Except.error.injEq] at he
      exact Or.inl he.symm
    | some doc =>
      simp only [convert_pdf_all_pages, hopen] at he
      by_cases hc : doc.page_count = 0
      · rw [if_pos hc] at he
        simp only [Except.error.injEq] at he
        exact Or.inr (Or.inl he.symm)
      · rw [if_neg hc, batch_fold_spec] at he
        by_cases hz : ((List.range doc.page_count).filter
            (fun i => (pageRender env doc t dpi i).isSome)).length = 0
        · rw [if_pos hz] at he
          simp only [Except.error.injEq] at he
          exact Or.inr (Or.inr he.symm)
        · rw [if_neg hz] at he
          simp at he

/-- Witness for C2: at the concrete one-success document the archive is
returned non-empty, discharging the success-path hypotheses of the
theorem. -/
theorem c2_witness :
    ([("page_1.png", ([5] : Bytes))] : List (String × Bytes)) ≠ [] ∧
      (1 : Nat) ≠ 0 :=
  (((c2_batch_error_conditions envA "png" [10] 200).2.2 doc2 rfl).2.2
    [("page_1.png", [5])] "application/zip" [2] 1 (by decide))

/-- C3: `convert_pdf` fails with the empty-document error when the page
count is zero, fails with the page-out-of-range error whenever the
requested page number lies outside `[1, pageCount]`, and succeeds for
every page number inside `[1, pageCount]` on a well-formed document (one
whose requested page rasterises) with a registry target format. -/
theorem c3_convert_pdf_validation (env : Env) (t : String) (raw : Bytes)
    (page_number : Int) (dpi : Nat) (doc : PdfDoc)
    (hopen : env.pdfOpen raw = some doc) :
    (doc.page_count = 0 →
      convert_pdf env t raw page_number dpi = .error .emptyDocument)
    ∧ (doc.page_count ≠ 0 →
        (page_number < 1 ∨ (doc.page_count : Int) < page_number) →
        convert_pdf env t raw page_number dpi = .error .pageOutOfRange)
    ∧ (1 ≤ page_number → page_number ≤ (doc.page_count : Int) →
        ∀ samples,
          doc.pixmapSamples (page_number - 1).toNat dpi = some samples →
          t ∈ ["png", "jpg", "webp", "bmp"] →
          convert_pdf env t raw page_number dpi =
            .ok (samples, (mime_map.lookup t).getD "")) := by
  refine ⟨?_, ?_, ?_⟩
  · intro hc
    simp [convert_pdf, hopen, hc]
  · intro hc hrange
    simp only [convert_pdf, hopen]
    rw [if_neg hc, if_pos (by omega)]
  · intro h1 h2 samples hsamples ht
    have hcount : doc.page_count ≠ 0 := by omega
    have hrender : pageRender env doc t dpi (page_number - 1).toNat =
        some samples := by
      rw [pageRender, hsamples]
      fin_cases ht <;> simp [pilSave, pilFmt, strUpper, jpegRawModes]
    simp only [convert_pdf, hopen]
    rw [if_neg hcount, if_neg (by omega), hrender]
    fin_cases ht <;> rfl

/-- Witness for C3 at the concrete two-page document: page 1 converts to
PNG, pages 0 and 3 are rejected as out of range, and the empty document is
rejected. -/
theorem c3_witness :
    convert_pdf envA "png" [10] 1 200 =
      .ok ([5], (mime_map.lookup "png").getD "") ∧
    convert_pdf envA "png" [10] 0 200 = .error .pageOutOfRange ∧
    convert_pdf envA "png" [10] 3 200 = .error .pageOutOfRange ∧
    convert_pdf envA "png" [11] 1 200 = .error .emptyDocument :=
  ⟨(c3_convert_pdf_validation envA "png" [10] 1 200 doc2 rfl).2.2
      (by decide) (by decide) [5] rfl (by decide),
   (c3_convert_pdf_validation envA "png" [10] 0 200 doc2 rfl).2.1
      (by decide) (by decide),
   (c3_convert_pdf_validation envA "png" [10] 3 200 doc2 rfl).2.1
      (by decide) (by decide),
   (c3_convert_pdf_validation envA "png" [11] 1 200 doc0 rfl).1 rfl⟩

/-! ## Image and tabular helper definitions and lemmas -/

lemma mime_map_lookup_mem {t m : String} (h : mime_map.lookup t = some m) :
    t ∈ ["png", "jpg", "webp", "bmp"] := by
  by_cases h1 : t = "png"
  · simp [h1]
  by_cases h2 : t = "jpg"
  · simp [h2]
  by_cases h3 : t = "webp"
  · simp [h3]
  by_cases h4 : t = "bmp"
  · simp [h4]
  exfalso
  have e1 : (t == "png") = false := beq_eq_false_iff_ne.mpr h1
  have e2 : (t == "jpg") = false := beq_eq_false_iff_ne.mpr h2
  have e3 : (t == "webp") = false := beq_eq_false_iff_ne.mpr h3
  have e4 : (t == "bmp") = false := beq_eq_false_iff_ne.mpr h4
  simp [mime_map, List.lookup, e1, e2, e3, e4] at h

/-- C9: `convert_image` returns a result only for targets png, jpg, webp,
bmp (the keys of its MIME table); target `jpeg` encodes successfully but
then fails at the MIME lookup; and for the four listed targets the MIME
lookup failure branch is unreachable. -/
theorem c9_convert_image_mime_table (env : Env) :
    (∀ s t raw pr, convert_image env s t raw = .ok pr →
        t ∈ ["png", "jpg", "webp", "bmp"])
    ∧ (∀ s raw img, env.imageOpen raw = some img →
        ∀ payload,
          pilSave (imageToSave img "jpeg") (pilFmt "jpeg") = some payload →
          convert_image env s "jpeg" raw = .error .mimeKeyError)
    ∧ (∀ s t raw, t ∈ ["png", "jpg", "webp", "bmp"] →
        convert_image env s t raw ≠ .error .mimeKeyError) := by
  refine ⟨?_, ?_, ?_⟩
  · intro s t raw pr hok
    cases h1 : env.imageOpen raw with
    | none => simp [convert_image, h1] at hok
    | some img =>
      cases h2 : pilSave (imageToSave img t) (pilFmt t) with
      | none => simp [convert_image, h1, h2] at hok
      | some payload =>
        cases h3 : mime_map.lookup t with
        | none => simp [convert_image, h1, h2, h3] at hok
        | some m => exact mime_map_lookup_mem h3
  · intro s raw img hopen payload hsave
    simp [convert_image, hopen, hsave, mime_map, List.lookup]
  · intro s t raw ht hc
    cases h1 : env.imageOpen raw with
    | none => simp [convert_image, h1] at hc
    | some img =>
      cases h2 : pilSave (imageToSave img t) (pilFmt t) with
      | none => simp [convert_image, h1, h2] at hc
      | some payload =>
        cases h3 : mime_map.lookup t with
        | none => fin_cases ht <;> simp [mime_map, List.lookup] at h3
        | some m => simp [convert_image, h1, h2, h3] at hc

/-- Witness for C9: with a decodable opaque RGB source, target `jpeg`
encodes but fails at the MIME lookup. -/
theorem c9_witness :
    convert_image envA "png" "jpeg" [3] = .error .mimeKeyError :=
  (c9_convert_image_mime_table envA).2.1 "png" [3]
    { mode := "RGB", data := [9], transparency := false } rfl [9] (by decide)

/-- Modelled from Pillow's mode semantics: the pixel modes that carry an
alpha channel. -/
def alphaModes : List String := ["RGBA", "LA", "PA", "RGBa", "La"]

/-- Whether an image's pixel representation carries an alpha channel or is
a palette image with transparency information. -/
def carriesTransparency (img : PILImage) : Bool :=
  alphaModes.contains img.mode || (img.mode == "P" && img.transparency)

/-- C5 counterexample: a decodable grayscale-plus-alpha (LA) source
carries an alpha channel, yet with the JPEG target `convert_image` does
not flatten it to RGB (the image handed to the encoder still has mode LA)
and the call raises at the encoder instead of succeeding. -/
theorem c5_counterexample :
    carriesTransparency { mode := "LA", data := [9], transparency := false } = true
    ∧ envA.imageOpen [2] =
        some { mode := "LA", data := [9], transparency := false }
    ∧ (imageToSave { mode := "LA", data := [9], transparency := false }
        "jpg").mode = "LA"
    ∧ convert_image envA "png" "jpg" [2] = .error .imageSaveError := by
  exact ⟨by decide, rfl, by decide, by decide⟩

/-- C5 amended: with the JPEG target `jpg`, the image handed to the
encoder is flattened to an opaque RGB representation exactly when the
source mode is RGBA or P (Pillow's palette mode); in particular every
decodable RGBA source is flattened and the conversion succeeds.  Other
alpha-carrying modes are passed through unflattened. -/
theorem c5_jpeg_flattening (env : Env) (s : String) (raw : Bytes)
    (img : PILImage) (hopen : env.imageOpen raw = some img) :
    ((img.mode = "RGBA" ∨ img.mode = "P") →
      (imageToSave img "jpg").mode = "RGB")
    ∧ (¬(img.mode = "RGBA" ∨ img.mode = "P") → imageToSave img "jpg" = img)
    ∧ (img.mode = "RGBA" →
        convert_image env s "jpg" raw = .ok (img.data, "image/jpeg")) := by
  refine ⟨?_, ?_, ?_⟩
  · intro h
    simp [imageToSave, pilFmt, h, PILImage.convert]
  · intro h
    simp [imageToSave, pilFmt, h]
  · intro h
    simp [convert_image, hopen, imageToSave, pilFmt, h, PILImage.convert,
      pilSave, jpegRawModes, mime_map, List.lookup]

/-- Witness for C5 at the concrete RGBA source: it is flattened to RGB and
the JPEG conversion succeeds. -/
theorem c5_witness :
    (imageToSave { mode := "RGBA", data := [9], transparency := false }
      "jpg").mode = "RGB"
    ∧ convert_image envA "png" "jpg" [1] = .ok ([9], "image/jpeg") :=
  ⟨(c5_jpeg_flattening envA "png" [1]
      { mode := "RGBA", data := [9], transparency := false } rfl).1
      (Or.inl rfl),
   (c5_jpeg_flattening envA "png" [1]
      { mode := "RGBA", data := [9], transparency := false } rfl).2.2 rfl⟩

/-- C7: for a byte payload that decodes as UTF-8, `convert_text` is a
byte-identity re-tag for the two supported pairs (txt→md with
text/markdown, md→txt with text/plain), any other pair fails with the
unsupported-text-conversion error, and a payload that is not valid UTF-8
always fails with the invalid-encoding error. -/
theorem c7_convert_text_retag (env : Env) (raw : Bytes) :
    (∀ text, env.decodeUtf8 raw = some text →
      convert_text env "txt" "md" raw = .ok (raw, "text/markdown")
      ∧ convert_text env "md" "txt" raw = .ok (raw, "text/plain")
      ∧ (∀ s t, ¬((s = "txt" ∧ t = "md") ∨ (s = "md" ∧ t = "txt")) →
          convert_text env s t raw = .error .unsupportedTextConversion))
    ∧ (env.decodeUtf8 raw = none →
        ∀ s t, convert_text env s t raw = .error .invalidUtf8) := by
  constructor
  · intro text hdec
    have henc : env.encodeUtf8 text = raw := env.utf8_roundtrip raw text hdec
    refine ⟨?_, ?_, ?_⟩
    · simp [convert_text, hdec, henc]
    · simp [convert_text, hdec, henc]
    · intro s t hpair
      push_neg at hpair
      by_cases hs1 : s = "txt" ∧ t = "md"
      · exact absurd hs1.2 (hpair.1 hs1.1)
      · by_cases hs2 : s = "md" ∧ t = "txt"
        · exact absurd hs2.2 (hpair.2 hs2.1)
        · simp [convert_text, hdec, hs1, hs2]
  · intro hdec s t
    simp [convert_text, hdec]

/-- Witness for C7: the empty payload decodes, txt→md re-tags it as
markdown unchanged, csv→md is rejected as unsupported, and the
non-decodable payload `[1]` fails with the encoding error. -/
theorem c7_witness :
    convert_text envA "txt" "md" [] = .ok ([], "text/markdown")
    ∧ convert_text envA "csv" "md" [] = .error .unsupportedTextConversion
    ∧ convert_text envA "txt" "md" [1] = .error .invalidUtf8 :=
  ⟨((c7_convert_text_retag envA []).1 "" rfl).1,
   ((c7_convert_text_retag envA []).1 "" rfl).2.2 "csv" "md" (by decide),
   (c7_convert_text_retag envA [1]).2 rfl "txt" "md"⟩

/-- The error kinds that the specification classifies as an
unsupported-format condition (the three Japanese-language ValueError
raise sites inside the converters plus the dispatcher's
unsupported-source raise). -/
def IsUnsupportedFormatError : ConvError → Bool
  | .unsupportedTabularSource => true
  | .unsupportedTabularTarget => true
  | .unsupportedTextConversion => true
  | .unsupportedSourceFormat => true
  | _ => false

lemma load_tabular_recognized (env : Env) (s : String) (raw : Bytes)
    (hs : s ∈ ["csv", "tsv", "json", "xlsx"]) :
    (∃ df, load_tabular env s raw = .ok df)
    ∨ load_tabular env s raw = .error .tabularParseError := by
  fin_cases hs
  · cases h : env.readCsv raw with
    | none => exact Or.inr (by simp [load_tabular, h])
    | some df => exact Or.inl ⟨df, by simp [load_tabular, h]⟩
  · cases h : env.readTsv raw with
    | none => exact Or.inr (by simp [load_tabular, h])
    | some df => exact Or.inl ⟨df, by simp [load_tabular, h]⟩
  · cases h : env.readJsonNormalized raw with
    | none => exact Or.inr (by simp [load_tabular, h])
    | some df => exact Or.inl ⟨df, by simp [load_tabular, h]⟩
  · cases h : env.readExcel raw with
    | none => exact Or.inr (by simp [load_tabular, h])
    | some df => exact Or.inl ⟨df, by simp [load_tabular, h]⟩

/-- C6 counterexample: with the source extension `csv` (recognized), the
target extension `foo` (unrecognized) and an unparsable payload, the
failure raised is the parse error coming from `load_tabular`, not an
unsupported-format condition — the parse runs before the target is ever
examined. -/
theorem c6_counterexample :
    ("foo" ∉ ["csv", "tsv", "json", "xlsx"])
    ∧ convert_tabular envA "csv" "foo" [] = .error .tabularParseError
    ∧ IsUnsupportedFormatError .tabularParseError = false :=
  ⟨by decide, by decide, rfl⟩

/-- C6 amended: an unrecognized source extension always fails with the
unsupported-tabular-source error; an unrecognized target fails with the
unsupported-tabular-target error provided the source payload parses; and
for recognized source/target pairs no unsupported-format condition is
ever raised. -/
theorem c6_tabular_unsupported_format (env : Env) (s t : String)
    (raw : Bytes) :
    (s ∉ ["csv", "tsv", "json", "xlsx"] →
      convert_tabular env s t raw = .error .unsupportedTabularSource)
    ∧ (t ∉ ["csv", "tsv", "json", "xlsx"] →
        ∀ df, load_tabular env s raw = .ok df →
        convert_tabular env s t raw = .error .unsupportedTabularTarget)
    ∧ (s ∈ ["csv", "tsv", "json", "xlsx"] →
        t ∈ ["csv", "tsv", "json", "xlsx"] →
        ∀ e, convert_tabular env s t raw = .error e →
          IsUnsupportedFormatError e = false) := by
  refine ⟨?_, ?_, ?_⟩
  · intro hs
    have h1 : s ≠ "csv" := fun h => hs (by simp [h])
    have h2 : s ≠ "tsv" := fun h => hs (by simp [h])
    have h3 : s ≠ "json" := fun h => hs (by simp [h])
    have h4 : s ≠ "xlsx" := fun h => hs (by simp [h])
    simp [convert_tabular, load_tabular, h1, h2, h3, h4]
  · intro ht df hdf
    have h1 : t ≠ "csv" := fun h => ht (by simp [h])
    have h2 : t ≠ "tsv" := fun h => ht (by simp [h])
    have h3 : t ≠ "json" := fun h => ht (by simp [h])
    have h4 : t ≠ "xlsx" := fun h => ht (by simp [h])
    simp [convert_tabular, hdf, h1, h2, h3, h4]
  · intro hs ht e he
    rcases load_tabular_recognized env s raw hs with ⟨df, hdf⟩ | hparse
    · rw [convert_tabular, hdf] at he
      fin_cases ht
      · simp at he
      · simp at he
      · revert he
        cases hj : env.toJson df with
        | none =>
          intro he
          simp [hj] at he
          subst he
          rfl
        | some text => intro he; simp [hj] at he
      · simp at he
    · rw [convert_tabular, hparse] at he
      simp only [Except.error.injEq] at he
      subst he
      rfl

/-- Witness for C6: an unrecognized source fails as unsupported source, an
unrecognized target with a parsable payload fails as unsupported target,
and a recognized pair with an unparsable payload fails with a
non-unsupported error. -/
theorem c6_witness :
    convert_tabular envA "doc" "csv" [] = .error .unsupportedTabularSource
    ∧ convert_tabular envA "csv" "pdf" [20] = .error .unsupportedTabularTarget
    ∧ IsUnsupportedFormatError .tabularParseError = false :=
  ⟨(c6_tabular_unsupported_format envA "doc" "csv" []).1 (by decide),
   (c6_tabular_unsupported_format envA "csv" "pdf" [20]).2.1 (by decide)
     { id := 0 } (by decide),
   (c6_tabular_unsupported_format envA "csv" "tsv" []).2.2 (by decide)
     (by decide) .tabularParseError (by decide)⟩

/-- C10: for a source extension of the tabular, text or image family, the
result of `convert_file` is independent of the `page_number` and `dpi`
arguments, which are only threaded to the PDF branch. -/
theorem c10_convert_file_page_dpi_independent (env : Env)
    (s t : String) (raw : Bytes) (p1 p2 : Int) (d1 d2 : Nat)
    (hfam : (TABULAR_TARGETS.lookup s).isSome
      ∨ (TEXT_TARGETS.lookup s).isSome
      ∨ (IMAGE_TARGETS.lookup s).isSome) :
    convert_file env s t raw p1 d1 = convert_file env s t raw p2 d2 := by
  by_cases h1 : (TABULAR_TARGETS.lookup s).isSome
  · simp [convert_file, h1]
  · by_cases h2 : (TEXT_TARGETS.lookup s).isSome
    · simp [convert_file, h1, h2]
    · by_cases h3 : (IMAGE_TARGETS.lookup s).isSome
      · simp [convert_file, h1, h2, h3]
      · rcases hfam with h | h | h <;> contradiction

/-- Witness for C10: a text conversion gives the same result under two
different page/dpi argument pairs. -/
theorem c10_witness :
    convert_file envA "txt" "md" [] 1 72 =
      convert_file envA "txt" "md" [] 99 300 :=
  c10_convert_file_page_dpi_independent envA "txt" "md" [] 1 99 72 300
    (Or.inr (Or.inl (by decide)))

/-- The recognized source extensions (the keys of the four registry
dicts, in their order). -/
def recognizedSources : List String :=
  ["csv", "tsv", "json", "xlsx", "txt", "md",
   "png", "jpg", "jpeg", "webp", "bmp", "pdf"]

lemma convert_image_error_kinds (env : Env) (s t : String) (raw : Bytes)
    (e : ConvError) (he : convert_image env s t raw = .error e) :
    IsUnsupportedFormatError e = false := by
  cases h1 : env.imageOpen raw with
  | none =>
    simp only [convert_image, h1, Except.error.injEq] at he
    subst he; rfl
  | some img =>
    cases h2 : pilSave (imageToSave img t) (pilFmt t) with
    | none =>
      simp only [convert_image, h1, h2, Except.error.injEq] at he
      subst he; rfl
    | some payload =>
      cases h3 : mime_map.lookup t with
      | none =>
        simp only [convert_image, h1, h2, h3, Except.error.injEq] at he
        subst he; rfl
      | some m => simp [convert_image, h1, h2, h3] at he

lemma convert_pdf_error_kinds (env : Env) (t : String) (raw : Bytes)
    (pn : Int) (dpi : Nat) (e : ConvError)
    (he : convert_pdf env t raw pn dpi = .error e) :
    IsUnsupportedFormatError e = false := by
  cases h1 : env.pdfOpen raw with
  | none =>
    simp only [convert_pdf, h1, Except.error.injEq] at he
    subst he; rfl
  | some doc =>
    by_cases hc : doc.page_count = 0
    · simp only [convert_pdf, h1] at he
      rw [if_pos hc] at he
      simp only [Except.error.injEq] at he
      subst he; rfl
    · by_cases hr : (pn - 1 < 0 ∨ (doc.page_count : Int) ≤ pn - 1)
      · simp only [convert_pdf, h1] at he
        rw [if_neg hc, if_pos hr] at he
        simp only [Except.error.injEq] at he
        subst he; rfl
      · simp only [convert_pdf, h1] at he
        rw [if_neg hc, if_neg hr] at he
        cases h2 : pageRender env doc t dpi (pn - 1).toNat with
        | none =>
          rw [h2] at he
          simp only [Except.error.injEq] at he
          subst he; rfl
        | some payload =>
          rw [h2] at he
          cases h3 : mime_map.lookup t with
          | none =>
            rw [h3] at he
            simp only [Except.error.injEq] at he
            subst he; rfl
          | some m => rw [h3] at he; simp at he

lemma convert_text_pair_error_kinds (env : Env) (s t : String)
    (raw : Bytes) (e : ConvError)
    (hpair : (s = "txt" ∧ t = "md") ∨ (s = "md" ∧ t = "txt"))
    (he : convert_text env s t raw = .error e) :
    IsUnsupportedFormatError e = false := by
  cases hdec : env.decodeUtf8 raw with
  | none =>
    simp only [convert_text, hdec, Except.error.injEq] at he
    subst he; rfl
  | some text =>
    rcases hpair with ⟨rfl, rfl⟩ | ⟨rfl, rfl⟩ <;>
      simp [convert_text, hdec] at he

lemma convert_tabular_error_kinds (env : Env) (s t : String) (raw : Bytes)
    (e : ConvError) (hs : s ∈ ["csv", "tsv", "json", "xlsx"])
    (ht : t ∈ ["csv", "tsv", "json", "xlsx"])
    (he : convert_tabular env s t raw = .error e) :
    IsUnsupportedFormatError e = false := by
  rcases load_tabular_recognized env s raw hs with ⟨df, hdf⟩ | hparse
  · rw [convert_tabular, hdf] at he
    fin_cases ht
    · simp at he
    · simp at he
    · revert he
      cases hj : env.toJson df with
      | none =>
        intro he
        simp [hj] at he
        subst he
        rfl
      | some text => intro he; simp [hj] at he
    · simp at he
  · rw [convert_tabular, hparse] at he
    simp only [Except.error.injEq] at he
    subst he
    rfl

/-- C4: every recognized source extension has a non-empty, duplicate-free
candidate list, and for every target in that list the dispatcher routes
the pair to a converter branch that never raises an unsupported-format
condition; every unrecognized extension gets the empty candidate list. -/
theorem c4_registry_candidates_and_dispatch (ext : String) :
    (ext ∈ recognizedSources →
      get_candidates ext ≠ []
      ∧ (get_candidates ext).Nodup
      ∧ ∀ tgt ∈ get_candidates ext, ∀ (env : Env) (raw : Bytes) (pn : Int)
          (dpi : Nat) (e : ConvError),
          convert_file env ext tgt raw pn dpi = .error e →
          IsUnsupportedFormatError e = false)
    ∧ (ext ∉ recognizedSources → get_candidates ext = []) := by
  constructor
  · intro hmem
    fin_cases hmem
    · refine ⟨by decide, by decide, ?_⟩
      intro tgt htgt env raw pn dpi e he
      have htgt4 : tgt ∈ (["json", "xlsx", "tsv"] : List String) := htgt
      exact convert_tabular_error_kinds env "csv" tgt raw e (by decide)
        (by fin_cases htgt4 <;> decide) (by exact he)
    · refine ⟨by decide, by decide, ?_⟩
      intro tgt htgt env raw pn dpi e he
      have htgt4 : tgt ∈ (["csv", "json", "xlsx"] : List String) := htgt
      exact convert_tabular_error_kinds env "tsv" tgt raw e (by decide)
        (by fin_cases htgt4 <;> decide) (by exact he)
    · refine ⟨by decide, by decide, ?_⟩
      intro tgt htgt env raw pn dpi e he
      have htgt4 : tgt ∈ (["csv", "tsv", "xlsx"] : List String) := htgt
      exact convert_tabular_error_kinds env "json" tgt raw e (by decide)
        (by fin_cases htgt4 <;> decide) (by exact he)
    · refine ⟨by decide, by decide, ?_⟩
      intro tgt htgt env raw pn dpi e he
      have htgt4 : tgt ∈ (["csv", "tsv", "json"] : List String) := htgt
      exact convert_tabular_error_kinds env "xlsx" tgt raw e (by decide)
        (by fin_cases htgt4 <;> decide) (by exact he)
    · refine ⟨by decide, by decide, ?_⟩
      intro tgt htgt env raw pn dpi e he
      have htgt1 : tgt ∈ (["md"] : List String) := htgt
      fin_cases htgt1
      exact convert_text_pair_error_kinds env "txt" "md" raw e
        (Or.inl ⟨rfl, rfl⟩) (by exact he)
    · refine ⟨by decide, by decide, ?_⟩
      intro tgt htgt env raw pn dpi e he
      have htgt1 : tgt ∈ (["txt"] : List String) := htgt
      fin_cases htgt1
      exact convert_text_pair_error_kinds env "md" "txt" raw e
        (Or.inr ⟨rfl, rfl⟩) (by exact he)
    · refine ⟨by decide, by decide, ?_⟩
      intro tgt htgt env raw pn dpi e he
      exact convert_image_error_kinds env "png" tgt raw e (by exact he)
    · refine ⟨by decide, by decide, ?_⟩
      intro tgt htgt env raw pn dpi e he
      exact convert_image_error_kinds env "jpg" tgt raw e (by exact he)
    · refine ⟨by decide, by decide, ?_⟩
      intro tgt htgt env raw pn dpi e he
      exact convert_image_error_kinds env "jpeg" tgt raw e (by exact he)
    · refine ⟨by decide, by decide, ?_⟩
      intro tgt htgt env raw pn dpi e he
      exact convert_image_error_kinds env "webp" tgt raw e (by exact he)
    · refine ⟨by decide, by decide, ?_⟩
      intro tgt htgt env raw pn dpi e he
      exact convert_image_error_kinds env "bmp" tgt raw e (by exact he)
    · refine ⟨by decide, by decide, ?_⟩
      intro tgt htgt env raw pn dpi e he
      exact convert_pdf_error_kinds env tgt raw pn dpi e (by exact he)
  · intro hext
    have c1 : ext ≠ "csv" := fun h => hext (by simp [recognizedSources, h])
    have c2 : ext ≠ "tsv" := fun h => hext (by simp [recognizedSources, h])
    have c3 : ext ≠ "json" := fun h => hext (by simp [recognizedSources, h])
    have c4 : ext ≠ "xlsx" := fun h => hext (by simp [recognizedSources, h])
    have c5 : ext ≠ "txt" := fun h => hext (by simp [recognizedSources, h])
    have c6 : ext ≠ "md" := fun h => hext (by simp [recognizedSources, h])
    have c7 : ext ≠ "png" := fun h => hext (by simp [recognizedSources, h])
    have c8 : ext ≠ "jpg" := fun h => hext (by simp [recognizedSources, h])
    have c9 : ext ≠ "jpeg" := fun h => hext (by simp [recognizedSources, h])
    have c10 : ext ≠ "webp" := fun h => hext (by simp [recognizedSources, h])
    have c11 : ext ≠ "bmp" := fun h => hext (by simp [recognizedSources, h])
    have c12 : ext ≠ "pdf" := fun h => hext (by simp [recognizedSources, h])
    simp [get_candidates, TABULAR_TARGETS, TEXT_TARGETS, IMAGE_TARGETS,
      PDF_TARGETS, List.lookup,
      beq_eq_false_iff_ne.mpr c1, beq_eq_false_iff_ne.mpr c2,
      beq_eq_false_iff_ne.mpr c3, beq_eq_false_iff_ne.mpr c4,
      beq_eq_false_iff_ne.mpr c5, beq_eq_false_iff_ne.mpr c6,
      beq_eq_false_iff_ne.mpr c7, beq_eq_false_iff_ne.mpr c8,
      beq_eq_false_iff_ne.mpr c9, beq_eq_false_iff_ne.mpr c10,
      beq_eq_false_iff_ne.mpr c11, beq_eq_false_iff_ne.mpr c12]

/-- Witness for C4: the unknown extension `zzz` gets an empty candidate
list, while `csv` gets a non-empty one. -/
theorem c4_witness :
    get_candidates "zzz" = [] ∧ get_candidates "csv" ≠ [] :=
  ⟨(c4_registry_candidates_and_dispatch "zzz").2 (by decide),
   ((c4_registry_candidates_and_dispatch "csv").1 (by decide)).1⟩

/-! ## Lemmas about the extension detector -/

lemma rfindDot_eq_none {l : List Char} : rfindDot l = none ↔ '.' ∉ l := by
  induction l with
  | nil => simp [rfindDot]
  | cons c cs ih =>
    cases h : rfindDot cs with
    | some i =>
      have hin : '.' ∈ cs := by
        by_contra hno
        rw [ih.mpr hno] at h
        exact Option.noConfusion h
      simp [rfindDot, h, hin]
    | none =>
      by_cases hc : c = '.'
      · simp [rfindDot, h, hc]
      · simp [rfindDot, h, hc, ih.mp h, Ne.symm hc]

lemma rfindDot_append (pre post : List Char) (hpost : '.' ∉ post) :
    rfindDot (pre ++ '.' :: post) = some pre.length := by
  induction pre with
  | nil =>
    rw [List.nil_append, rfindDot, rfindDot_eq_none.mpr hpost]
    simp
  | cons c pre ih =>
    rw [List.cons_append, rfindDot, ih]
    simp

lemma rfindDot_some {l : List Char} {i : Nat} (h : rfindDot l = some i) :
    ∃ pre post, l = pre ++ '.' :: post ∧ pre.length = i ∧ '.' ∉ post := by
  induction l generalizing i with
  | nil => simp [rfindDot] at h
  | cons c cs ih =>
    rw [rfindDot] at h
    cases h2 : rfindDot cs with
    | some j =>
      rw [h2] at h
      simp only [Option.some.injEq] at h
      obtain ⟨pre, post, heq, hlen, hpost⟩ := ih h2
      exact ⟨c :: pre, post, by simp [heq], by simp [hlen, h], hpost⟩
    | none =>
      rw [h2] at h
      by_cases hc : c = '.'
      · rw [if_pos hc] at h
        simp only [Option.some.injEq] at h
        exact ⟨[], cs, by simp [hc], by simp [h], rfindDot_eq_none.mp h2⟩
      · rw [if_neg hc] at h
        exact Option.noConfusion h

lemma toLower_ne_dot {c : Char} (hc : c ≠ '.') : Char.toLower c ≠ '.' := by
  intro h
  simp only [Char.toLower] at h
  by_cases hrange : c.toNat ≥ 65 ∧ c.toNat ≤ 90
  · rw [if_pos hrange] at h
    obtain ⟨h65, h90⟩ := hrange
    generalize hg : c.toNat = n at h65 h90 h
    interval_cases n <;> exact absurd h (by decide)
  · rw [if_neg hrange] at h
    exact hc h

/-- C8 counterexample: for the filename `.bashrc` the final path component
does contain a dot, and the lowercase substring after its last dot is
`bashrc`, yet `detect_extension` returns the empty string (a leading dot
is not treated as an extension separator by `pathlib`). -/
theorem c8_counterexample :
    detect_extension ".bashrc" = ""
    ∧ pathNameChars ".bashrc" = ['.', 'b', 'a', 's', 'h', 'r', 'c']
    ∧ '.' ∈ pathNameChars ".bashrc" :=
  ⟨by decide, by decide, by decide⟩

/-- C8 amended: `detect_extension` returns the lowercase substring after
the last dot of the final path component whenever that dot is neither the
component's first nor last character; it returns the empty string exactly
when no such interior dot exists (no dot at all, only a leading dot, or
the last dot in final position). -/
theorem c8_detect_extension_characterization (f : String) :
    (∀ pre post, pathNameChars f = pre ++ '.' :: post → pre ≠ [] →
        post ≠ [] → '.' ∉ post →
        detect_extension f = String.mk (post.map Char.toLower))
    ∧ (detect_extension f = "" ↔
        ¬∃ pre post, pathNameChars f = pre ++ '.' :: post ∧ pre ≠ []
          ∧ post ≠ [] ∧ '.' ∉ post) := by
  have key : ∀ pre post, pathNameChars f = pre ++ '.' :: post → pre ≠ [] →
      post ≠ [] → '.' ∉ post →
      detect_extension f = String.mk (post.map Char.toLower) := by
    intro pre post hname hpre hpost hdot
    have hfind : rfindDot (pathNameChars f) = some pre.length := by
      rw [hname]; exact rfindDot_append pre post hdot
    have hcond : 0 < pre.length ∧
        pre.length < (pathNameChars f).length - 1 := by
      refine ⟨List.length_pos.mpr hpre, ?_⟩
      rw [hname]
      have := List.length_pos.mpr hpost
      simp [List.length_append]
      omega
    obtain ⟨q, post2, rfl⟩ := List.exists_cons_of_ne_nil hpost
    have hq : q ≠ '.' := by
      intro hqe
      exact hdot (by simp [hqe])
    have hdotlow : Char.toLower '.' = '.' := by decide
    have hqlow : Char.toLower q ≠ '.' := toLower_ne_dot hq
    simp only [detect_extension, pySuffix, hfind]
    rw [if_pos hcond, hname, List.drop_left]
    simp only [List.map_cons, List.dropWhile_cons, hdotlow]
    simp [hqlow]
  refine ⟨key, ?_, ?_⟩
  · intro hempty
    rintro ⟨pre, post, hname, hpre, hpost, hdot⟩
    have hdet := key pre post hname hpre hpost hdot
    rw [hempty] at hdet
    obtain ⟨q, post2, rfl⟩ := List.exists_cons_of_ne_nil hpost
    have hdata := congrArg String.data hdet
    simp at hdata
  · intro hnone
    cases hr : rfindDot (pathNameChars f) with
    | none =>
      simp only [detect_extension, pySuffix, hr, List.map_nil,
        List.dropWhile_nil]
    | some i =>
      obtain ⟨pre, post, hname, hlen, hdot⟩ := rfindDot_some hr
      by_cases hpre : pre = []
      · have hi : i = 0 := by rw [← hlen, hpre]; rfl
        simp only [detect_extension, pySuffix, hr,
          if_neg (by omega : ¬(0 < i ∧ i < (pathNameChars f).length - 1)),
          List.map_nil, List.dropWhile_nil]
      · by_cases hpost : post = []
        · have hlc : (pathNameChars f).length = i + 1 := by
            rw [hname, hpost, ← hlen]
            simp
          simp only [detect_extension, pySuffix, hr,
            if_neg (by omega : ¬(0 < i ∧ i < (pathNameChars f).length - 1)),
            List.map_nil, List.dropWhile_nil]
        · exact absurd ⟨pre, post, hname, hpre, hpost, hdot⟩ hnone

/-- Witness for C8: the filename `dir/Report.PDF` has the interior dot
decomposition `Report` / `PDF`, and `detect_extension` returns the
lowercased `pdf`. -/
theorem c8_witness :
    detect_extension "dir/Report.PDF" =
      String.mk (['P', 'D', 'F'].map Char.toLower) :=
  (c8_detect_extension_characterization "dir/Report.PDF").1
    ['R', 'e', 'p', 'o', 'r', 't'] ['P', 'D', 'F']
    (by decide) (by decide) (by decide) (by decide)
